import Mathlib

/-!
Shallow embedding of `src/server.js`, an OpenAI-to-NVIDIA-NIM translation
proxy, together with proofs of its specified properties.

JavaScript values that may be `undefined` are modelled as `Option _`; the
JavaScript `x || d` idiom is modelled by helpers that also treat the falsy
values `0`, `false` and the empty string as absent, exactly as `||` does.
JS numbers are modelled as rationals (`ℚ`) where fractional values occur
(temperature) and as integers (`ℤ`) elsewhere; none of the arithmetic here
can overflow a double.  Wall-clock time (`Date.now()`) is passed in as an
explicit parameter `now`.
-/

set_option autoImplicit false

namespace NimProxy

/-! ## JavaScript `||` default helpers -/

/-- JS `a || d` producing a definite string (the default is a literal). -/
def jsOrStrD (x : Option String) (d : String) : String :=
  match x with
  | some s => if s = "" then d else s
  | none => d

/-- JS `a || d` on possibly-undefined numbers: `undefined` and `0` are falsy. -/
def jsOrNum (x : Option ℚ) (d : ℚ) : ℚ :=
  match x with
  | some v => if v = 0 then d else v
  | none => d

/-- JS `a || d` on possibly-undefined integers: `undefined` and `0` are falsy. -/
def jsOrInt (x : Option ℤ) (d : ℤ) : ℤ :=
  match x with
  | some v => if v = 0 then d else v
  | none => d

/-- JS `a || d` on possibly-undefined booleans: `undefined` and `false` are falsy. -/
def jsOrBool (x : Option Bool) (d : Bool) : Bool :=
  match x with
  | some v => v || d
  | none => d

/-- JS truthiness of a possibly-undefined boolean (e.g. `if (stream)`). -/
def jsTruthy (x : Option Bool) : Bool :=
  match x with
  | some v => v
  | none => false

/-! ## Model mapping (server.js lines 19-30) -/

/-- The static `MODEL_MAPPING` table, in source order. -/
def MODEL_MAPPING : List (String × String) :=
  [("gpt-3.5-turbo", "nvidia/llama-3.1-nemotron-ultra-253b-v1"),
   ("gpt-4", "qwen/qwen3-coder-480b-a35b-instruct"),
   ("gpt-4-turbo", "moonshotai/kimi-k2.5"),
   ("gpt-4o", "deepseek-ai/deepseek-v3.1"),
   ("gpt-4o-mini", "deepseek-ai/deepseek-v3.2"),
   ("o1", "deepseek-ai/deepseek-v3.1-terminus"),
   ("claude-3-opus", "openai/gpt-oss-120b"),
   ("claude-3-sonnet", "openai/gpt-oss-20b"),
   ("claude-3-haiku", "qwen/qwen3-235b-a22b"),
   ("gemini-pro", "qwen/qwen3-next-80b-a3b-thinking")]

/-- Property names every object literal inherits from `Object.prototype`.
A property read on `MODEL_MAPPING` for one of these yields the inherited
member — a function, or the prototype object itself for `__proto__` —
never `undefined`. -/
def OBJECT_PROTOTYPE_MEMBERS : List String :=
  ["constructor", "hasOwnProperty", "isPrototypeOf", "propertyIsEnumerable",
   "toLocaleString", "toString", "valueOf", "__proto__",
   "__defineGetter__", "__defineSetter__", "__lookupGetter__",
   "__lookupSetter__"]

/-- What a JS property read on the mapping object can produce:
`undefined`, an own string entry, or a member inherited from
`Object.prototype`. -/
inductive JsProp where
  | undef
  | str (s : String)
  | inherited (name : String)
  deriving DecidableEq, Repr

/-- JS truthiness of a property-read result: `undefined` and the empty
string are falsy; an inherited member is a function or object, always
truthy. -/
def JsProp.truthy : JsProp → Bool
  | JsProp.undef => false
  | JsProp.str s => !(s == "")
  | JsProp.inherited _ => true

/-- JS `a || b` on property-read results. -/
def jsOrProp (a b : JsProp) : JsProp :=
  if a.truthy then a else b

/-- The own entry of `MODEL_MAPPING` keyed `m`, if any. -/
def ownEntry (m : String) : Option String :=
  (MODEL_MAPPING.find? (fun p => p.1 == m)).map Prod.snd

/-- Property access `MODEL_MAPPING[m]`: the own entry when one exists,
otherwise the prototype chain (the `Object.prototype` members), otherwise
`undefined`. -/
def propGet (m : String) : JsProp :=
  match ownEntry m with
  | some v => JsProp.str v
  | none =>
    if m ∈ OBJECT_PROTOTYPE_MEMBERS then JsProp.inherited m
    else JsProp.undef

/-- Line 63: `MODEL_MAPPING[model] || MODEL_MAPPING['gpt-4o']`.  An absent
`model` is `undefined`, which property access coerces to the key
`"undefined"` — neither an own entry nor an `Object.prototype` member. -/
def nimModel (model : Option String) : JsProp :=
  jsOrProp
    (match model with
      | some m => propGet m
      | none => propGet "undefined")
    (propGet "gpt-4o")

/-! ## Request shapes -/

/-- One inbound message, `{role, content}`. The proxy never inspects these. -/
structure Message where
  role : String
  content : String
  deriving DecidableEq, Repr

/-- The fields destructured from `req.body` on line 60. -/
structure InboundRequest where
  model : Option String
  messages : List Message
  temperature : Option ℚ
  max_tokens : Option ℤ
  stream : Option Bool
  deriving DecidableEq, Repr

/-- The backend-shaped request body (`nimRequest`, lines 68-74). -/
structure NimRequest where
  model : JsProp
  messages : List Message
  temperature : ℚ
  max_tokens : ℤ
  stream : Bool
  deriving DecidableEq, Repr

/-- Lines 68-74: build the outbound request from the inbound one. -/
def nimRequest (req : InboundRequest) : NimRequest :=
  { model := nimModel req.model
    messages := req.messages
    temperature := jsOrNum req.temperature (7/10)
    max_tokens := jsOrInt req.max_tokens 2048
    stream := jsOrBool req.stream false }

/-! ## Backend (non-streamed) response shapes -/

/-- A backend message; either field may be missing from the JSON. -/
structure NimMessage where
  role : Option String
  content : Option String
  deriving DecidableEq, Repr

/-- A backend choice; `message` and `finish_reason` may be missing. -/
structure NimChoice where
  index : ℤ
  message : Option NimMessage
  finish_reason : Option String
  deriving DecidableEq, Repr

/-- A usage object with its three counters. -/
structure Usage where
  prompt_tokens : ℤ
  completion_tokens : ℤ
  total_tokens : ℤ
  deriving DecidableEq, Repr

/-- A buffered backend JSON body: `choices` plus optional `usage`. -/
structure NimResponse where
  choices : List NimChoice
  usage : Option Usage
  deriving DecidableEq, Repr

/-! ## Translated (caller-facing) response shapes -/

/-- A translated message: both fields always present. -/
structure OpenAIMessage where
  role : String
  content : String
  deriving DecidableEq, Repr

/-- A translated choice: all fields always present. -/
structure OpenAIChoice where
  index : ℤ
  message : OpenAIMessage
  finish_reason : String
  deriving DecidableEq, Repr

/-- The translated response object (`openaiResponse`, lines 99-117). -/
structure OpenAIResponse where
  id : String
  object : String
  created : ℤ
  model : Option String
  choices : List OpenAIChoice
  usage : Usage
  deriving DecidableEq, Repr

/-- Lines 104-111: translate one backend choice, with `||` defaults for
`message?.role`, `message?.content` and `finish_reason`. -/
def translateChoice (c : NimChoice) : OpenAIChoice :=
  { index := c.index
    message :=
      { role := jsOrStrD (c.message.bind (fun m => m.role)) "assistant"
        content := jsOrStrD (c.message.bind (fun m => m.content)) "" }
    finish_reason := jsOrStrD c.finish_reason "stop" }

/-- Lines 99-117: the full translated response.  `now` is `Date.now()`. -/
def openaiResponse (model : Option String) (data : NimResponse) (now : ℤ) :
    OpenAIResponse :=
  { id := "chatcmpl-" ++ toString now
    object := "chat.completion"
    created := now / 1000
    model := model
    choices := data.choices.map translateChoice
    usage := data.usage.getD ⟨0, 0, 0⟩ }

/-! ## Errors (catch block, lines 122-142) -/

/-- The parts of an axios error the catch block reads:
`error.response?.status`, `error.response?.data?.detail`, `error.message`.
A transport failure has `responseStatus = none`; a backend non-2xx reply
carries its status and payload. -/
structure AxiosError where
  responseStatus : Option ℤ
  responseDetail : Option String
  message : String
  deriving DecidableEq, Repr

/-- `error.response?.status || 500` (line 135 and line 139). -/
def errStatus (e : AxiosError) : ℤ :=
  jsOrInt e.responseStatus 500

/-- `error.response?.data?.detail || error.message || 'Internal server error'`
(line 137). -/
def errMessage (e : AxiosError) : String :=
  jsOrStrD e.responseDetail (jsOrStrD (some e.message) "Internal server error")

/-- The uniform error body `{message, type, code}`. -/
structure ErrorBody where
  message : String
  type : String
  code : ℤ
  deriving DecidableEq, Repr

/-- Lines 135-141: the error body sent from the chat-completions catch block. -/
def chatErrorBody (e : AxiosError) : ErrorBody :=
  { message := errMessage e
    type := "invalid_request_error"
    code := errStatus e }

/-- Lines 146-154: the catch-all route. Returns (HTTP status, body). -/
def notFoundResponse (path : String) : ℤ × ErrorBody :=
  (404, { message := "Endpoint " ++ path ++ " not found"
          type := "invalid_request_error"
          code := 404 })

/-! ## Streaming (lines 85-96) -/

/-- An event of the backend stream: a data chunk, a clean close, or an
error emitted mid-flight. -/
inductive StreamEvent where
  | chunk (data : String)
  | close
  | error (msg : String)
  deriving DecidableEq, Repr

/-- Chunks actually written to the caller: `response.data.pipe(res)` relays
chunks in order; a clean close or an error ends the caller stream
(`res.end()` on error, line 95) with nothing further written. -/
def relayBody : List StreamEvent → List String
  | [] => []
  | StreamEvent.chunk d :: rest => d :: relayBody rest
  | StreamEvent.close :: _ => []
  | StreamEvent.error _ :: _ => []

/-- The caller-facing streamed response: the three headers set on lines
87-89, the relayed chunks, and the fact that the stream was ended. -/
structure StreamResponse where
  contentType : String
  cacheControl : String
  connection : String
  body : List String
  ended : Bool
  deriving DecidableEq, Repr

/-- Lines 85-96: the streaming branch. -/
def relayStream (events : List StreamEvent) : StreamResponse :=
  { contentType := "text/event-stream"
    cacheControl := "no-cache"
    connection := "keep-alive"
    body := relayBody events
    ended := true }

/-! ## The chat-completions handler (lines 58-143) -/

/-- The outbound call of line 77: URL, bearer header, JSON body. -/
structure OutboundCall where
  url : String
  authHeader : String
  body : NimRequest
  deriving DecidableEq, Repr

/-- Line 77-83: `axios.post` target and headers. -/
def outboundCall (base key : String) (r : NimRequest) : OutboundCall :=
  { url := base ++ "/chat/completions"
    authHeader := "Bearer " ++ key
    body := r }

/-- What one backend call produces: a buffered JSON body, a stream, or a
thrown axios error (non-2xx reply or transport failure). -/
inductive AxiosReply where
  | json (data : NimResponse)
  | stream (events : List StreamEvent)
  | failure (e : AxiosError)
  deriving DecidableEq, Repr

/-- What the handler sends back to the caller. -/
inductive ProxyResult where
  | jsonOk (body : OpenAIResponse)
  | error (status : ℤ) (body : ErrorBody)
  | streamOut (s : StreamResponse)
  deriving DecidableEq, Repr

/-- Line 131: `NIM_API_KEY?.substring(0, 20) + '...'`, the only place the
credential value reaches a log line.  `substring(0, 20)` keeps the first
20 characters, modelled by `List.take` on the character data. -/
def loggedKeyExcerpt (key : String) : String :=
  String.mk (key.data.take 20) ++ "..."

/-- Console rendering of a possibly-undefined integer. -/
def showOptInt : Option ℤ → String
  | some n => toString n
  | none => "undefined"

/-- Console rendering of a possibly-undefined string. -/
def showOptStr : Option String → String
  | some s => s
  | none => "undefined"

/-- Lines 124-133: the `console.error` lines of the catch block (the
`statusText`, `Error Data` and `Request URL` lines are elided: they carry
backend data already modelled in `e` and never the credential). -/
def errorLog (e : AxiosError) (reqModel : Option String) (key base : String) :
    List String :=
  ["=== ERROR DETAILS ===",
   "Status: " ++ showOptInt e.responseStatus,
   "Model Requested: " ++ showOptStr reqModel,
   "API Key (first 20 chars): " ++ loggedKeyExcerpt key,
   "API Base: " ++ base,
   "===================="]

/-- Lines 58-143: the whole `POST /v1/chat/completions` handler.

The backend is an oracle `Nat → OutboundCall → AxiosReply`: its first
argument counts calls made so far, so that "no retry" is the statement
that only index `0` is ever consulted.  The handler performs exactly one
`axios.post` (line 77); the try/catch turns every thrown error into the
uniform error response.  Returns the caller-facing result paired with the
log lines written. -/
def chatCompletions (req : InboundRequest)
    (backend : Nat → OutboundCall → AxiosReply) (now : ℤ)
    (base key : String) : ProxyResult × List String :=
  match backend 0 (outboundCall base key (nimRequest req)) with
  | AxiosReply.json data =>
      (ProxyResult.jsonOk (openaiResponse req.model data now), [])
  | AxiosReply.stream events =>
      (ProxyResult.streamOut (relayStream events), [])
  | AxiosReply.failure e =>
      (ProxyResult.error (errStatus e) (chatErrorBody e),
       errorLog e req.model key base)

/-! ## Theorems -/

/-- Helper: a key not matched by any own mapping entry looks up to nothing. -/
theorem ownEntry_eq_none (m : String)
    (h : ∀ p ∈ MODEL_MAPPING, m ≠ p.1) : ownEntry m = none := by
  unfold ownEntry
  rw [List.find?_eq_none.mpr]
  · rfl
  · intro p hp
    simpa using fun hpm => (h p hp) hpm.symm

/-- C1 counterexample: `"toString"` is not a key of the Model Mapping, yet
the outbound model field is not the default entry's backend name: the
property read `MODEL_MAPPING["toString"]` on line 63 finds the truthy
member inherited from `Object.prototype`, so `||` never reaches the
default entry. -/
theorem prototype_member_model_counterexample :
    (∀ p ∈ MODEL_MAPPING, "toString" ≠ p.1) ∧
    (nimRequest ⟨some "toString", [], none, none, none⟩).model
        = JsProp.inherited "toString" ∧
    (nimRequest ⟨some "toString", [], none, none, none⟩).model
        ≠ JsProp.str "deepseek-ai/deepseek-v3.1" := by
  decide

/-- C1 (amended): a recognized caller model name maps to its backend name
in the outbound request; a name that is neither a mapping key nor the
name of an `Object.prototype` member — and likewise an absent model —
falls back to the default entry keyed `gpt-4o`, whose backend name is
`deepseek-ai/deepseek-v3.1`; but a name of an inherited
`Object.prototype` member (such as `toString`) leaks that inherited
member into the outbound model field instead of falling back. -/
theorem model_mapping_resolution :
    (∀ k v, (k, v) ∈ MODEL_MAPPING →
      ∀ req : InboundRequest, req.model = some k →
        (nimRequest req).model = JsProp.str v) ∧
    (∀ req : InboundRequest,
      (∀ p ∈ MODEL_MAPPING, req.model ≠ some p.1) →
      (∀ n ∈ OBJECT_PROTOTYPE_MEMBERS, req.model ≠ some n) →
      (nimRequest req).model = propGet "gpt-4o") ∧
    propGet "gpt-4o" = JsProp.str "deepseek-ai/deepseek-v3.1" ∧
    (∀ req : InboundRequest, ∀ n ∈ OBJECT_PROTOTYPE_MEMBERS,
      req.model = some n → (nimRequest req).model = JsProp.inherited n) := by
  refine ⟨?_, ?_, rfl, ?_⟩
  · intro k v hkv req hm
    show nimModel req.model = JsProp.str v
    rw [hm]
    have hall : ∀ p ∈ MODEL_MAPPING, nimModel (some p.1) = JsProp.str p.2 := by
      decide
    exact hall (k, v) hkv
  · intro req h1 h2
    show nimModel req.model = propGet "gpt-4o"
    cases hreq : req.model with
    | none => rfl
    | some m =>
      have hown : ownEntry m = none := by
        refine ownEntry_eq_none m ?_
        intro p hp heq
        exact (h1 p hp) (by rw [hreq, heq])
      have hmem : m ∉ OBJECT_PROTOTYPE_MEMBERS := by
        intro hmem
        exact (h2 m hmem) hreq
      have hpg : propGet m = JsProp.undef := by
        simp [propGet, hown, hmem]
      unfold nimModel
      show jsOrProp (propGet m) (propGet "gpt-4o") = propGet "gpt-4o"
      rw [hpg]
      rfl
  · intro req n hn hm
    show nimModel req.model = JsProp.inherited n
    rw [hm]
    have hall : ∀ n ∈ OBJECT_PROTOTYPE_MEMBERS,
        nimModel (some n) = JsProp.inherited n := by
      decide
    exact hall n hn

/-- C1 witness: concrete instances of all three behaviours — a mapped
key, a genuinely unknown name falling back to the default, and an
inherited prototype member leaking through. -/
theorem model_mapping_resolution_witness :
    (nimRequest ⟨some "gpt-4", [], none, none, none⟩).model
      = JsProp.str "qwen/qwen3-coder-480b-a35b-instruct" ∧
    (nimRequest ⟨some "totally-unknown", [], none, none, none⟩).model
      = propGet "gpt-4o" ∧
    (nimRequest ⟨some "valueOf", [], none, none, none⟩).model
      = JsProp.inherited "valueOf" :=
  ⟨model_mapping_resolution.1 "gpt-4" "qwen/qwen3-coder-480b-a35b-instruct"
      (by decide) _ rfl,
   model_mapping_resolution.2.1 _ (by decide) (by decide),
   model_mapping_resolution.2.2.2 _ "valueOf" (by decide) rfl⟩

/-- C2: every successful non-streamed completion reports the caller's own
model name, whatever the backend replied and whatever the mapping did. -/
theorem translated_model_roundtrip (req : InboundRequest)
    (backend : Nat → OutboundCall → AxiosReply) (now : ℤ) (base key : String)
    (r : OpenAIResponse)
    (h : (chatCompletions req backend now base key).1 = ProxyResult.jsonOk r) :
    r.model = req.model := by
  unfold chatCompletions at h
  cases hb : backend 0 (outboundCall base key (nimRequest req)) <;>
    rw [hb] at h <;> simp only at h
  case json data =>
    cases h
    rfl
  case stream events => cases h
  case failure e => cases h

/-- C2 witness: a concrete successful round trip. -/
theorem translated_model_roundtrip_witness :
    (openaiResponse (some "gpt-4o-mini") ⟨[], none⟩ 7).model
      = some "gpt-4o-mini" :=
  translated_model_roundtrip
    ⟨some "gpt-4o-mini", [], none, none, none⟩
    (fun _ _ => AxiosReply.json ⟨[], none⟩) 7 "b" "k"
    (openaiResponse (some "gpt-4o-mini") ⟨[], none⟩ 7) rfl

/-- A request whose caller explicitly asks for temperature 0. -/
def reqTempZero : InboundRequest :=
  { model := some "gpt-4o"
    messages := [{ role := "user", content := "hi" }]
    temperature := some 0
    max_tokens := none
    stream := none }

/-- C3 counterexample: the claim says a present inbound `temperature` is
carried into the outbound request unchanged, but a caller-supplied
`temperature: 0` is replaced by the default `0.7` (JS `||` treats `0` as
absent). -/
theorem outbound_defaults_counterexample :
    reqTempZero.temperature = some 0 ∧
    (nimRequest reqTempZero).temperature ≠ 0 ∧
    (nimRequest reqTempZero).temperature = 7/10 := by
  refine ⟨rfl, ?_, rfl⟩
  show jsOrNum (some 0) (7/10) ≠ 0
  simp only [jsOrNum, if_pos rfl]
  norm_num

/-- C3 (amended): the outbound request replaces `model` with its mapped
value and copies `messages`; the defaults temperature=0.7, max_tokens=2048,
stream=false apply when the inbound field is absent OR equal to the falsy
value of its type (`0`, `0`, `false` — the JS `||` idiom); any other
present value is carried unchanged (for `stream`, a present `false`
coincides with the default, so every present boolean is carried). -/
theorem outbound_defaults (req : InboundRequest) :
    (nimRequest req).model = nimModel req.model ∧
    (nimRequest req).messages = req.messages ∧
    ((req.temperature = none ∨ req.temperature = some 0) →
      (nimRequest req).temperature = 7/10) ∧
    (∀ t, req.temperature = some t → t ≠ 0 →
      (nimRequest req).temperature = t) ∧
    ((req.max_tokens = none ∨ req.max_tokens = some 0) →
      (nimRequest req).max_tokens = 2048) ∧
    (∀ n, req.max_tokens = some n → n ≠ 0 →
      (nimRequest req).max_tokens = n) ∧
    (req.stream = none → (nimRequest req).stream = false) ∧
    (∀ b, req.stream = some b → (nimRequest req).stream = b) := by
  refine ⟨rfl, rfl, ?_, ?_, ?_, ?_, ?_, ?_⟩
  · rintro (h | h) <;> simp [nimRequest, jsOrNum, h]
  · intro t ht hne
    simp [nimRequest, jsOrNum, ht, hne]
  · rintro (h | h) <;> simp [nimRequest, jsOrInt, h]
  · intro n hn hne
    simp [nimRequest, jsOrInt, hn, hne]
  · intro h
    simp [nimRequest, jsOrBool, h]
  · intro b hb
    simp [nimRequest, jsOrBool, hb]

/-- C3 witness: concrete carried values and defaults. -/
theorem outbound_defaults_witness :
    (nimRequest ⟨none, [], some (1/2), none, some true⟩).temperature = 1/2 ∧
    (nimRequest ⟨none, [], some (1/2), none, some true⟩).max_tokens = 2048 ∧
    (nimRequest ⟨none, [], some (1/2), none, some true⟩).stream = true := by
  obtain ⟨-, -, -, h4, h5, -, -, h8⟩ :=
    outbound_defaults ⟨none, [], some (1/2), none, some true⟩
  exact ⟨h4 (1/2) rfl (by norm_num), h5 (Or.inl rfl), h8 true rfl⟩

/-- Helper: the per-choice defaults applied by `translateChoice`. -/
theorem translateChoice_defaults (c : NimChoice) :
    (translateChoice c).index = c.index ∧
    (c.message = none → (translateChoice c).message.role = "assistant" ∧
      (translateChoice c).message.content = "") ∧
    (∀ m, c.message = some m →
      (m.role = none → (translateChoice c).message.role = "assistant") ∧
      (m.content = none → (translateChoice c).message.content = "")) ∧
    (c.finish_reason = none → (translateChoice c).finish_reason = "stop") := by
  refine ⟨rfl, ?_, ?_, ?_⟩
  · intro h
    constructor <;> simp [translateChoice, jsOrStrD, h]
  · intro m hm
    constructor <;> intro h <;> simp [translateChoice, jsOrStrD, hm, h]
  · intro h
    simp [translateChoice, jsOrStrD, h]

/-- C4: the translated response copies each backend choice at the same
position, preserving `index`; a missing `message` or missing `role`
defaults the role to `assistant`, a missing `message` or missing
`content` defaults the content to the empty string, a missing
`finish_reason` defaults to `stop`; and a missing `usage` is replaced by
the zero-valued usage object with all three counters present. -/
theorem translated_choice_defaults (model : Option String) (data : NimResponse)
    (now : ℤ) :
    (openaiResponse model data now).choices.length = data.choices.length ∧
    (∀ (i : ℕ) (hi : i < data.choices.length)
        (ho : i < (openaiResponse model data now).choices.length),
      ((openaiResponse model data now).choices.get ⟨i, ho⟩).index
          = (data.choices.get ⟨i, hi⟩).index ∧
      ((data.choices.get ⟨i, hi⟩).message = none →
        ((openaiResponse model data now).choices.get ⟨i, ho⟩).message.role
            = "assistant" ∧
        ((openaiResponse model data now).choices.get ⟨i, ho⟩).message.content
            = "") ∧
      (∀ m, (data.choices.get ⟨i, hi⟩).message = some m →
        (m.role = none →
          ((openaiResponse model data now).choices.get ⟨i, ho⟩).message.role
              = "assistant") ∧
        (m.content = none →
          ((openaiResponse model data now).choices.get ⟨i, ho⟩).message.content
              = "")) ∧
      ((data.choices.get ⟨i, hi⟩).finish_reason = none →
        ((openaiResponse model data now).choices.get ⟨i, ho⟩).finish_reason
            = "stop")) ∧
    (data.usage = none → (openaiResponse model data now).usage = ⟨0, 0, 0⟩) := by
  refine ⟨by simp [openaiResponse], ?_, ?_⟩
  · intro i hi ho
    have hget : (openaiResponse model data now).choices.get ⟨i, ho⟩
        = translateChoice (data.choices.get ⟨i, hi⟩) := by
      simp [openaiResponse, List.get_eq_getElem]
    rw [hget]
    exact translateChoice_defaults _
  · intro h
    simp [openaiResponse, h]

/-- The backend response used in the C4 witness: one bare choice, no usage. -/
def dataBare : NimResponse := ⟨[⟨3, none, none⟩], none⟩

/-- C4 witness: the bare choice and missing usage get all the defaults. -/
theorem translated_choice_defaults_witness :
    ((openaiResponse none dataBare 5).choices.get ⟨0, by decide⟩).index = 3 ∧
    ((openaiResponse none dataBare 5).choices.get
        ⟨0, by decide⟩).message.role = "assistant" ∧
    ((openaiResponse none dataBare 5).choices.get
        ⟨0, by decide⟩).message.content = "" ∧
    ((openaiResponse none dataBare 5).choices.get
        ⟨0, by decide⟩).finish_reason = "stop" ∧
    (openaiResponse none dataBare 5).usage = ⟨0, 0, 0⟩ := by
  obtain ⟨-, hidx, husage⟩ := translated_choice_defaults none dataBare 5
  obtain ⟨h1, h2, -, h4⟩ := hidx 0 (by decide) (by decide)
  obtain ⟨hr, hc⟩ := h2 rfl
  exact ⟨h1, hr, hc, h4 rfl, husage rfl⟩

/-- A backend 429 whose payload carries a present-but-empty `detail`. -/
def errEmptyDetail : AxiosError :=
  ⟨some 429, some "", "Request failed with status code 429"⟩

/-- C5 counterexample: a backend non-2xx response whose payload `detail`
field is present (the empty string) does not get its message derived from
that field — JS `||` skips the falsy `""` and the proxy answers with the
error's own message instead. -/
theorem backend_error_empty_detail_counterexample :
    errEmptyDetail.responseDetail = some "" ∧
    (chatErrorBody errEmptyDetail).message ≠ "" ∧
    (chatErrorBody errEmptyDetail).message
        = "Request failed with status code 429" ∧
    (chatErrorBody errEmptyDetail).code = 429 := by
  refine ⟨rfl, ?_, ?_, ?_⟩ <;> decide

/-- C5 (amended): a backend non-2xx response surfaces with the same
status code, and with a message derived from the payload's `detail` field
when that field is present and non-empty (an absent or empty `detail`
falls back to the error's own message, or to `Internal server error` when
that is empty too); a transport failure surfaces as status 500; and no
retry is attempted — the handler consults the backend exactly once, so
its behaviour depends only on the first call's outcome. -/
theorem backend_error_propagation :
    (∀ req backend now base key e,
      backend 0 (outboundCall base key (nimRequest req))
          = AxiosReply.failure e →
      (∀ s, e.responseStatus = some s → s ≠ 0 →
        (chatCompletions req backend now base key).1
            = ProxyResult.error s (chatErrorBody e)) ∧
      (e.responseStatus = none →
        (chatCompletions req backend now base key).1
            = ProxyResult.error 500 (chatErrorBody e))) ∧
    (∀ e d, e.responseDetail = some d → d ≠ "" → errMessage e = d) ∧
    (∀ e, (e.responseDetail = none ∨ e.responseDetail = some "") →
      (e.message ≠ "" → errMessage e = e.message) ∧
      (e.message = "" → errMessage e = "Internal server error")) ∧
    (∀ e, e.responseStatus = none → errStatus e = 500) ∧
    (∀ req backend backend2 now base key,
      (∀ c, backend 0 c = backend2 0 c) →
      chatCompletions req backend now base key
          = chatCompletions req backend2 now base key) := by
  refine ⟨?_, ?_, ?_, ?_, ?_⟩
  · intro req backend now base key e hb
    constructor
    · intro s hs hns
      have hst : errStatus e = s := by simp [errStatus, jsOrInt, hs, hns]
      unfold chatCompletions
      rw [hb]
      show ProxyResult.error (errStatus e) (chatErrorBody e) = _
      rw [hst]
    · intro hs
      have hst : errStatus e = 500 := by simp [errStatus, jsOrInt, hs]
      unfold chatCompletions
      rw [hb]
      show ProxyResult.error (errStatus e) (chatErrorBody e) = _
      rw [hst]
  · intro e d hd hne
    simp [errMessage, jsOrStrD, hd, hne]
  · rintro e (h | h) <;> constructor <;> intro hm <;>
      simp [errMessage, jsOrStrD, h, hm]
  · intro e h
    simp [errStatus, jsOrInt, h]
  · intro req backend backend2 now base key h
    unfold chatCompletions
    rw [h (outboundCall base key (nimRequest req))]

/-- C5 witness: a concrete 429 with a non-empty detail is propagated, and
a concrete transport failure yields 500. -/
theorem backend_error_propagation_witness :
    (chatCompletions ⟨none, [], none, none, none⟩
        (fun _ _ => AxiosReply.failure ⟨some 429, some "quota", "oops"⟩)
        0 "b" "k").1
      = ProxyResult.error 429 (chatErrorBody ⟨some 429, some "quota", "oops"⟩) ∧
    errMessage ⟨some 429, some "quota", "oops"⟩ = "quota" ∧
    errStatus ⟨none, none, "net down"⟩ = 500 := by
  refine ⟨?_, ?_, ?_⟩
  · exact (backend_error_propagation.1 _ _ 0 "b" "k" _ rfl).1 429 rfl (by decide)
  · exact backend_error_propagation.2.1 _ "quota" rfl (by decide)
  · exact backend_error_propagation.2.2.2.1 _ rfl

/-- C6: every error response the handler constructs has the uniform body
shape — the `ErrorBody` type forces a string `message`, a string `type`
and an integer `code` — and its HTTP status equals the `code` field.
Both the chat-completions catch block and the catch-all route are total
functions here: every thrown error is converted to this shape and nothing
escapes the handler boundary. -/
theorem error_shape_uniform :
    (∀ req backend now base key s b,
      (chatCompletions req backend now base key).1 = ProxyResult.error s b →
      b.code = s) ∧
    (∀ path, ((notFoundResponse path).2).code = (notFoundResponse path).1) := by
  constructor
  · intro req backend now base key s b h
    unfold chatCompletions at h
    cases hb : backend 0 (outboundCall base key (nimRequest req)) <;>
      rw [hb] at h <;> simp only at h
    case json data => cases h
    case stream events => cases h
    case failure e =>
      injection h with h1 h2
      subst h1
      subst h2
      rfl
  · intro path
    rfl

/-- C6 witness: a concrete handler error with matching status and code. -/
theorem error_shape_uniform_witness :
    (chatErrorBody ⟨some 503, none, "bad gateway"⟩).code = 503 :=
  error_shape_uniform.1 ⟨none, [], none, none, none⟩
    (fun _ _ => AxiosReply.failure ⟨some 503, none, "bad gateway"⟩) 0 "b" "k"
    503 (chatErrorBody ⟨some 503, none, "bad gateway"⟩) rfl

/-- C7: any unmatched route is answered with HTTP status 404, an error
body whose `code` is 404, and a message containing the requested path. -/
theorem not_found_route (path : String) :
    (notFoundResponse path).1 = 404 ∧
    ((notFoundResponse path).2).code = 404 ∧
    ∃ before after, ((notFoundResponse path).2).message
        = before ++ path ++ after :=
  ⟨rfl, rfl, ⟨"Endpoint ", " not found", rfl⟩⟩

/-- Helper: relaying distributes over a leading run of data chunks. -/
theorem relayBody_append_chunks (cs : List String) (t : List StreamEvent) :
    relayBody (cs.map StreamEvent.chunk ++ t) = cs ++ relayBody t := by
  induction cs with
  | nil => rfl
  | cons d ds ih =>
    show d :: relayBody (ds.map StreamEvent.chunk ++ t) = _
    rw [ih]
    rfl

/-- C8: on a backend stream of N chunks followed by a clean close, the
caller receives exactly those N chunks unmodified and in order, under
event-stream headers with caching disabled and the connection kept alive,
and the stream ends with nothing synthesized after the relayed chunks; on
a backend error mid-flight the caller stream is ended immediately, again
with nothing written past the chunks already relayed. -/
theorem stream_relay_verbatim (chunks : List String) (msg : String)
    (rest : List StreamEvent) :
    relayStream (chunks.map StreamEvent.chunk ++ [StreamEvent.close])
        = ⟨"text/event-stream", "no-cache", "keep-alive", chunks, true⟩ ∧
    relayStream (chunks.map StreamEvent.chunk ++ StreamEvent.error msg :: rest)
        = ⟨"text/event-stream", "no-cache", "keep-alive", chunks, true⟩ := by
  constructor <;>
    simp [relayStream, relayBody_append_chunks, relayBody]

/-- C9 counterexample: a credential of at most 20 characters (here 11) is
written to the diagnostic log in full — `substring(0, 20)` only truncates
credentials longer than 20 characters, so the claim's "never the full
value" fails. -/
theorem short_credential_logged_counterexample :
    loggedKeyExcerpt "shortkey123" = "shortkey123" ++ "..." ∧
    ("API Key (first 20 chars): " ++ ("shortkey123" ++ "..."))
      ∈ errorLog ⟨none, none, "boom"⟩ none "shortkey123" "https://x.test" := by
  constructor
  · rfl
  · decide

/-- C9 (amended): the caller-visible response never depends on the
credential value (so the credential cannot appear in any response body the
proxy constructs), and the diagnostic log shows the first 20 characters of
the credential: a proper, non-reversible prefix whenever the credential is
longer than 20 characters, but the full value whenever it is not. -/
theorem credential_noninterference :
    (∀ req (reply : Nat → NimRequest → AxiosReply) now base key1 key2,
      (chatCompletions req (fun n c => reply n c.body) now base key1).1
        = (chatCompletions req (fun n c => reply n c.body) now base key2).1) ∧
    (∀ key : String, key.data.length ≤ 20 →
      loggedKeyExcerpt key = key ++ "...") ∧
    (∀ key : String, 20 < key.data.length →
      ∃ excerpt rest, loggedKeyExcerpt key = excerpt ++ "..." ∧
        key = excerpt ++ rest ∧ rest ≠ "" ∧ excerpt.data.length = 20) := by
  refine ⟨?_, ?_, ?_⟩
  · intro req reply now base key1 key2
    simp only [ chatCompletions, outboundCall]
    cases reply 0 (nimRequest req) <;> rfl
  · intro key h
    unfold loggedKeyExcerpt
    rw [List.take_of_length_le h]
  · intro key h
    refine ⟨String.mk (key.data.take 20), String.mk (key.data.drop 20),
      rfl, ?_, ?_, ?_⟩
    · show key = String.mk (key.data.take 20 ++ key.data.drop 20)
      rw [List.take_append_drop]
    · intro hc
      have hlen : (key.data.drop 20).length = ("" : String).data.length :=
        congrArg (fun s => s.data.length) hc
      rw [List.length_drop] at hlen
      have hnil : ("" : String).data.length = 0 := rfl
      rw [hnil] at hlen
      omega
    · show (key.data.take 20).length = 20
      rw [List.length_take]
      omega

/-- C9 witness: a 25-character credential is logged as its 20-character
proper prefix, and a concrete response is identical under two different
credentials. -/
theorem credential_noninterference_witness :
    (∃ excerpt rest,
      loggedKeyExcerpt "nvapi-0123456789abcdefghi" = excerpt ++ "..." ∧
      "nvapi-0123456789abcdefghi" = excerpt ++ rest ∧ rest ≠ "" ∧
      excerpt.data.length = 20) ∧
    (chatCompletions ⟨none, [], none, none, none⟩
        (fun _ c => AxiosReply.failure
          ⟨none, none, if c.body.stream then "s" else "t"⟩)
        0 "b" "key-one").1
      = (chatCompletions ⟨none, [], none, none, none⟩
        (fun _ c => AxiosReply.failure
          ⟨none, none, if c.body.stream then "s" else "t"⟩)
        0 "b" "key-two").1 :=
  ⟨credential_noninterference.2.2 "nvapi-0123456789abcdefghi" (by decide),
   credential_noninterference.1 ⟨none, [], none, none, none⟩
     (fun _ r => AxiosReply.failure ⟨none, none, if r.stream then "s" else "t"⟩)
     0 "b" "key-one" "key-two"⟩

/-- C10: every error body the proxy itself constructs — from the
chat-completions catch block or from the catch-all route — carries the
same constant `type` value `invalid_request_error`. -/
theorem error_type_constant :
    (∀ req backend now base key s b,
      (chatCompletions req backend now base key).1 = ProxyResult.error s b →
      b.type = "invalid_request_error") ∧
    (∀ path, ((notFoundResponse path).2).type = "invalid_request_error") := by
  constructor
  · intro req backend now base key s b h
    unfold chatCompletions at h
    cases hb : backend 0 (outboundCall base key (nimRequest req)) <;>
      rw [hb] at h <;> simp only at h
    case json data => cases h
    case stream events => cases h
    case failure e =>
      injection h with h1 h2
      subst h2
      rfl
  · intro path
    rfl

/-- C10 witness: a concrete transport failure produces the constant type. -/
theorem error_type_constant_witness :
    (chatErrorBody ⟨none, none, "boom"⟩).type = "invalid_request_error" :=
  error_type_constant.1 ⟨none, [], none, none, none⟩
    (fun _ _ => AxiosReply.failure ⟨none, none, "boom"⟩) 0 "b" "k"
    500 (chatErrorBody ⟨none, none, "boom"⟩) rfl

end NimProxy
